import Mathlib

/-!
Shallow embedding of the numerical examples repository
`mitx_mathematics_programming_examples` (Python sources):

* `src/complex_variables/complex_arithmetic/exponentiating_by_squaring/exponentiating_by_squaring.py`
* `src/real_analysis/real_numbers/herons_method/herons_method.py`
* `src/real_analysis/continuous_functions/steffensens_method/steffensens_method.py`
* `src/complex_variables/complex_numbers/basic_syntax/basic_syntax_with_class.py`

Python floats are modelled by exact rationals (the claims under study are
about control flow, domain checks and algebraic structure, not rounding),
real-or-complex generic arithmetic by an arbitrary `Field`, and Python
exceptions by `Except String`.  A division that Python would perform with
the `/` operator on numbers is modelled by `qdiv`, which returns the
`ZeroDivisionError` message exactly when the denominator is zero, as the
Python runtime does.
-/

/-- Python float division `a / b`: raises `ZeroDivisionError` on a zero
denominator, otherwise yields the quotient. -/
def qdiv (a b : ℚ) : Except String ℚ :=
  if b = 0 then .error "float division by zero" else .ok (a / b)

/-- `Except.isOk`-style discriminator: did the computation finish without
raising? -/
def exceptOk {ε α : Type} : Except ε α → Bool
  | .ok _ => true
  | .error _ => false

/-- Propositional discriminator: the computation finished without raising and
its result is strictly positive. -/
def okPos : Except String ℚ → Prop
  | .ok r => 0 < r
  | .error _ => False

/-!
## `exponentiating_by_squaring.py`

The `while n > 1` loop of `exp_by_squaring`, lines 65-85 of the source.
Loop state: `output`, `scale` and the remaining exponent `n`.  One recursive
step is one pass of the loop body: an odd `n` first multiplies `scale` by
`output` and decrements `n`, then (in either case) `output` is squared and
`n` is halved (`n >>= 1`).  On exit (`n <= 1`) the function returns
`output * scale` (line 88).
-/

/-- The `while n > 1` loop of `exp_by_squaring` together with the final
`return output * scale`. -/
def exp_loop {F : Type} [Field F] (output scale : F) (n : ℕ) : F :=
  if h : 1 < n then
    if n % 2 = 1 then
      exp_loop (output * output) (scale * output) ((n - 1) / 2)
    else
      exp_loop (output * output) scale (n / 2)
  else
    output * scale
termination_by n
decreasing_by
  all_goals omega

/-- Fuel-indexed version of `exp_loop`: `none` means the loop was still
running after `fuel` passes.  Used to state that the loop exits after
finitely many (logarithmically many) passes. -/
def exp_loop_fuel {F : Type} [Field F] : ℕ → F → F → ℕ → Option F
  | 0, _, _, _ => none
  | fuel + 1, output, scale, n =>
    if 1 < n then
      if n % 2 = 1 then
        exp_loop_fuel fuel (output * output) (scale * output) ((n - 1) / 2)
      else
        exp_loop_fuel fuel (output * output) scale (n / 2)
    else
      some (output * scale)

/-- `exp_by_squaring(z, n)` of the source: `z^0 = 1` special case (lines
49-51), reciprocal taken for negative exponents (lines 57-59), then the
squaring loop. -/
def exp_by_squaring {F : Type} [Field F] (z : F) (n : ℤ) : F :=
  if n = 0 then 1
  else if n < 0 then exp_loop (1 / z) 1 (-n).toNat
  else exp_loop z 1 n.toNat

/-- `exp_by_squaring` with the loop run on fuel: `some` exactly when the
loop finishes within `fuel` passes. -/
def exp_by_squaring_fuel {F : Type} [Field F] (fuel : ℕ) (z : F) (n : ℤ) : Option F :=
  if n = 0 then some 1
  else if n < 0 then exp_loop_fuel fuel (1 / z) 1 (-n).toNat
  else exp_loop_fuel fuel z 1 n.toNat

/-!
## `herons_method.py`
-/

/-- `epsilon` of `herons_method.py`, line 59: double precision machine
epsilon, as an exact rational. -/
def heron_epsilon : ℚ := 2220446049250313 / 10 ^ 31

/-- The `for _ in range(maximum_number_of_iterations)` loop of
`herons_method`, lines 66-76: compute the relative residual
`(x - a*a) / x`, break if within `epsilon`, otherwise apply the update
`a := 0.5 * (a + x / a)`.  Both divisions go through `qdiv`, mirroring the
Python `/` operator. -/
def heron_loop (x : ℚ) : ℕ → ℚ → Except String ℚ
  | 0, approximate_root => .ok approximate_root
  | fuel + 1, approximate_root => do
    let error ← qdiv (x - approximate_root * approximate_root) x
    if |error| ≤ heron_epsilon then
      .ok approximate_root
    else
      let quot ← qdiv x approximate_root
      heron_loop x fuel ((1 / 2) * (approximate_root + quot))

/-- `herons_method(x)` of the source: raises
`ValueError("Input must be a positive real number.")` for `x <= 0`
(lines 49-50), otherwise runs the loop for at most 16 iterations starting
from `approximate_root = x` and returns the last iterate. -/
def herons_method (x : ℚ) : Except String ℚ :=
  if x ≤ 0 then .error "Input must be a positive real number."
  else heron_loop x 16 x

/-!
## `steffensens_method.py`
-/

/-- `epsilon` of `steffensens_method.py`, line 57: four times double
precision epsilon, as an exact rational. -/
def steffensen_epsilon : ℚ := 8881784197001252 / 10 ^ 31

/-- The `for _ in range(maximum_number_of_iterations)` loop of `steffensen`,
lines 61-76 of the source, in source order: evaluate `f_xn = f(xn)`,
compute `g_xn = f(xn + f_xn) / f_xn - 1.0` (a Python division, raising
`ZeroDivisionError` when `f_xn == 0`), update `xn = xn - f_xn / g_xn`
(raising when `g_xn == 0`), and only then break when `|f_xn| < epsilon`. -/
def steffensen_loop (f : ℚ → ℚ) : ℕ → ℚ → Except String ℚ
  | 0, xn => .ok xn
  | fuel + 1, xn => do
    let f_xn := f xn
    let ratio ← qdiv (f (xn + f_xn)) f_xn
    let g_xn := ratio - 1
    let step ← qdiv f_xn g_xn
    let xn2 := xn - step
    if |f_xn| < steffensen_epsilon then
      .ok xn2
    else
      steffensen_loop f fuel xn2

/-- `steffensen(f, x)` of the source: run the loop for at most 16
iterations starting from `xn = x`. -/
def steffensen (f : ℚ → ℚ) (x : ℚ) : Except String ℚ :=
  steffensen_loop f 16 x

/-!
## `basic_syntax_with_class.py`

The `Complex` class.  Its numeric payload (two Python floats) is modelled
by two exact rationals for the arithmetic claims; for the constructor claim
the IEEE special values are modelled explicitly, since the distinction
finite / infinite / NaN is exactly what that claim is about.
-/

namespace BasicSyntax

/-- The numeric payload of an instance of the `Complex` class: the `real`
and `imag` attributes. -/
structure Complex where
  real : ℚ
  imag : ℚ
deriving DecidableEq

/-- `Complex.__mul__` (lines 249-289), complex-operand branch: the
Gauss-free product formula of lines 287-288. -/
def Complex.mul (self other : Complex) : Complex :=
  { real := self.real * other.real - self.imag * other.imag
    imag := self.real * other.imag + self.imag * other.real }

/-- `Complex.__imul__` (lines 329-369), complex-operand branch, as the
sequence of field assignments the source performs: first
`self_real = self.real` is saved (line 364), then `self.real` is
overwritten (line 367), then `self.imag` is computed from the saved
`self_real` and the not-yet-overwritten `self.imag` (line 368). -/
def Complex.imul (self other : Complex) : Complex :=
  let self_real := self.real
  let state1 : Complex :=
    { self with real := self.real * other.real - self.imag * other.imag }
  let state2 : Complex :=
    { state1 with imag := self_real * other.imag + state1.imag * other.real }
  state2

/-- The methods the `Complex` class body actually defines, in source
order (lines 58-481). -/
def Complex.defined_methods : List String :=
  ["__init__", "__add__", "__iadd__", "__sub__", "__isub__",
   "__mul__", "__rmul__", "__imul__", "__neg__",
   "conj", "modulus", "arg", "copy", "__str__"]

/-- The operators the class docstring advertises (lines 47-57 of the
source). -/
def Complex.docstring_operators : List String :=
  ["+", "+=", "-", "-=", "*", "*=", "/", "/=", "neg"]

/-- A live Python object of class `Complex`: an object identity plus the
numeric payload.  Python assigns distinct identities to distinct live
objects. -/
structure PyComplexObj where
  id : ℕ
  val : Complex
deriving DecidableEq

/-- Python `==` on two instances of the `Complex` class.  The class defines
no `__eq__` method, so the interpreter falls back to the default
`object.__eq__`, which is identity comparison. -/
def pyEq (a b : PyComplexObj) : Bool :=
  a.id == b.id

/-- A Python float value: finite, one of the two infinities, or NaN. -/
inductive PyFloat where
  | finite : ℚ → PyFloat
  | inf : PyFloat
  | neginf : PyFloat
  | nan : PyFloat
deriving DecidableEq

/-- Is this float a finite real number? -/
def PyFloat.isFinite : PyFloat → Bool
  | .finite _ => true
  | _ => false

/-- An argument passed to the `Complex` constructor: either something
`float()` converts (any float value, infinities and NaN included — Python
`float` accepts `inf` and `nan`), or something on which `float()` raises
`TypeError` or `ValueError`. -/
inductive PyInput where
  | flt : PyFloat → PyInput
  | nonnumeric : PyInput
deriving DecidableEq

/-- Python `float(value)` as used by the constructor: succeeds on every
float value (finite or not) and raises on non-numeric input. -/
def toFloat : PyInput → Except String PyFloat
  | .flt f => .ok f
  | .nonnumeric => .error "TypeError"

/-- The stored state a successful `Complex.__init__` produces: the two
converted floats, kept verbatim. -/
structure ComplexStored where
  real : PyFloat
  imag : PyFloat
deriving DecidableEq

/-- `Complex.__init__` (lines 58-84): try `float(real)` then
`float(imag)`; if either conversion raises, re-raise as
`TypeError("A complex number is created from two real numbers.")`; stores
whatever floats the conversions produced, with no finiteness check. -/
def Complex.init (real imag : PyInput) : Except String ComplexStored :=
  match toFloat real, toFloat imag with
  | .ok r, .ok i => .ok { real := r, imag := i }
  | _, _ => .error "A complex number is created from two real numbers."

end BasicSyntax

/-!
## Helper lemmas
-/

/-- Any natural number is below `2 ^ (log2 + 1)`. -/
theorem nat_lt_two_pow_log2_succ (n : ℕ) : n < 2 ^ (Nat.log2 n + 1) := by
  by_cases h : n = 0
  · subst h; positivity
  · exact (Nat.log2_lt h).mp (Nat.lt_succ_self _)

/-- Loop invariant of the squaring loop: started at any exponent
`n >= 1`, the loop computes `output ^ n * scale`. -/
theorem exp_loop_eq_pow {F : Type} [Field F] :
    ∀ (n : ℕ), 1 ≤ n → ∀ (output scale : F),
      exp_loop output scale n = output ^ n * scale := by
  intro n
  induction n using Nat.strong_induction_on with
  | _ n ih =>
    intro hn output scale
    rw [exp_loop.eq_def]
    by_cases h1 : 1 < n
    · simp only [h1, dif_pos]
      by_cases hodd : n % 2 = 1
      · simp only [hodd, if_pos]
        rw [ih ((n - 1) / 2) (by omega) (by omega)]
        have h2 : 2 * ((n - 1) / 2) = n - 1 := by omega
        have h3 : n - 1 + 1 = n := by omega
        calc (output * output) ^ ((n - 1) / 2) * (scale * output)
            = (output ^ 2) ^ ((n - 1) / 2) * (scale * output) := by ring
          _ = output ^ (2 * ((n - 1) / 2)) * (scale * output) := by
              rw [← pow_mul]
          _ = output ^ (n - 1) * output * scale := by rw [h2]; ring
          _ = output ^ n * scale := by rw [← pow_succ, h3]
      · simp only [hodd, if_neg, if_false]
        rw [ih (n / 2) (by omega) (by omega)]
        have h2 : 2 * (n / 2) = n := by omega
        calc (output * output) ^ (n / 2) * scale
            = (output ^ 2) ^ (n / 2) * scale := by ring
          _ = output ^ (2 * (n / 2)) * scale := by rw [← pow_mul]
          _ = output ^ n * scale := by rw [h2]
    · rw [dif_neg h1]
      have hone : n = 1 := by omega
      subst hone
      rw [pow_one]

/-- With fuel exceeding the bit length of `n`, the fuel-indexed loop ends
and agrees with the loop. -/
theorem exp_loop_fuel_spec {F : Type} [Field F] :
    ∀ (fuel : ℕ) (output scale : F) (n : ℕ), n < 2 ^ fuel →
      exp_loop_fuel (fuel + 1) output scale n = some (exp_loop output scale n) := by
  intro fuel
  induction fuel with
  | zero =>
    intro output scale n hn
    have hn0 : n = 0 := by omega
    subst hn0
    rw [exp_loop_fuel, exp_loop.eq_def]
    norm_num
  | succ fuel ih =>
    intro output scale n hn
    have hpow : 2 ^ (fuel + 1) = 2 * 2 ^ fuel := by ring
    rw [exp_loop_fuel, exp_loop.eq_def]
    by_cases h1 : 1 < n
    · rw [if_pos h1, dif_pos h1]
      by_cases hodd : n % 2 = 1
      · rw [if_pos hodd, if_pos hodd]
        exact ih _ _ _ (by omega)
      · rw [if_neg hodd, if_neg hodd]
        exact ih _ _ _ (by omega)
    · rw [if_neg h1, dif_neg h1]

/-- The Heron iteration started at a positive iterate with positive `x`
never raises and keeps the iterate positive. -/
theorem heron_loop_ok_pos (x : ℚ) (hx : 0 < x) :
    ∀ (fuel : ℕ) (a : ℚ), 0 < a → okPos (heron_loop x fuel a) := by
  intro fuel
  induction fuel with
  | zero =>
    intro a ha
    exact ha
  | succ fuel ih =>
    intro a ha
    rw [heron_loop]
    rw [qdiv, if_neg (ne_of_gt hx)]
    show okPos (if _ then _ else _)
    by_cases hc : |(x - a * a) / x| ≤ heron_epsilon
    · rw [if_pos hc]
      exact ha
    · rw [if_neg hc]
      show okPos ((qdiv x a).bind _)
      rw [qdiv, if_neg (ne_of_gt ha)]
      exact ih _ (by positivity)

/-- A computation whose result is ok-and-positive in particular does not
raise. -/
theorem okPos_exceptOk {e : Except String ℚ} (h : okPos e) : exceptOk e = true := by
  cases e with
  | ok r => rfl
  | error s => exact absurd h (by simp [okPos])

/-- `herons_method` on a positive input runs to completion with no
exception. -/
theorem herons_method_ok (x : ℚ) (hx : 0 < x) : exceptOk (herons_method x) = true := by
  rw [herons_method, if_neg (by linarith)]
  exact okPos_exceptOk (heron_loop_ok_pos x hx 16 x hx)

/-!
## Claim theorems
-/

/-- Claim C1: for every base `z` in a field (real or complex in the
source) and every integer `n >= 1`, `exp_by_squaring z n` — the stated
loop with `scale` starting at 1, `output` starting at `z`, odd `n`
folding `output` into `scale`, squaring and halving, returning
`output * scale` at `n = 1` — equals `z ^ n`, the product of `n` copies
of `z` by repeated multiplication. -/
theorem exp_by_squaring_pow_pos {F : Type} [Field F] (z : F) (n : ℤ)
    (h : 1 ≤ n) : exp_by_squaring z n = z ^ n.toNat := by
  rw [exp_by_squaring, if_neg (by omega), if_neg (by omega)]
  rw [exp_loop_eq_pow n.toNat (by omega) z 1, mul_one]

/-- Witness for claim C1 at `z = 3`, `n = 4`. -/
theorem exp_by_squaring_pow_pos_witness :
    exp_by_squaring (3 : ℚ) 4 = (3 : ℚ) ^ (4 : ℤ).toNat :=
  exp_by_squaring_pow_pos 3 4 (by norm_num)

/-- Claim C2 (evaluating the code where the claim fails): whenever the
current evaluation `f(xn)` is exactly zero — in particular when the
initial guess is exactly a root — `steffensen` raises
`ZeroDivisionError` while computing `f(xn + f_xn) / f_xn`, instead of
returning `xn` as immediate success. -/
theorem steffensen_raises_at_root (f : ℚ → ℚ) (x : ℚ) (h : f x = 0) :
    steffensen f x = .error "float division by zero" := by
  rw [steffensen, steffensen_loop]
  simp [qdiv, h, Bind.bind, Except.bind]

/-- Witness for the C2 theorem: the identity function has the root `0`;
starting there, `steffensen` raises rather than returning the root. -/
theorem steffensen_raises_at_root_witness :
    (fun t : ℚ => t) 0 = 0 ∧
      steffensen (fun t : ℚ => t) 0 = .error "float division by zero" :=
  ⟨rfl, steffensen_raises_at_root (fun t : ℚ => t) 0 rfl⟩

/-- Claim C3: for every base `z`, zero included, `exp_by_squaring z 0`
returns the multiplicative identity `1` (the convention `0 ^ 0 = 1`);
the `n = 0` branch returns before any multiplication or inversion
touches `z`. -/
theorem exp_by_squaring_zero_exponent {F : Type} [Field F] (z : F) :
    exp_by_squaring z 0 = 1 := by
  rw [exp_by_squaring, if_pos rfl]

/-- Witness for claim C3 at the most delicate base, `z = 0`. -/
theorem exp_by_squaring_zero_exponent_witness :
    exp_by_squaring (0 : ℚ) 0 = 1 :=
  exp_by_squaring_zero_exponent 0

/-- Claim C4 (evaluating the code where the claim fails): the class
docstring advertises the operators `/` and `/=`, but the class body
defines neither `__truediv__` nor `__itruediv__` (nor any division
method), so `z / w` on `Complex` values raises `TypeError`, never
`DivisionByZero`. -/
theorem complex_division_not_implemented :
    "/" ∈ BasicSyntax.Complex.docstring_operators ∧
    "/=" ∈ BasicSyntax.Complex.docstring_operators ∧
    "__truediv__" ∉ BasicSyntax.Complex.defined_methods ∧
    "__itruediv__" ∉ BasicSyntax.Complex.defined_methods := by
  decide

/-- Claim C5: for every pair of `Complex` values, in-place
multiplication — performed as the source performs it, overwriting
`real` first and computing `imag` from the snapshotted old `real` and
the untouched old `imag` — gives exactly the non-in-place product. -/
theorem complex_imul_eq_mul (z w : BasicSyntax.Complex) :
    z.imul w = z.mul w := rfl

/-- Witness for claim C5 at `z = 1 + 2i`, `w = 1 - i` (the pair the
source demo multiplies). -/
theorem complex_imul_eq_mul_witness :
    BasicSyntax.Complex.imul ⟨1, 2⟩ ⟨1, -1⟩ =
      BasicSyntax.Complex.mul ⟨1, 2⟩ ⟨1, -1⟩ :=
  complex_imul_eq_mul ⟨1, 2⟩ ⟨1, -1⟩

/-- Claim C6: `herons_method` raises
`ValueError("Input must be a positive real number.")` exactly on
`x <= 0`, and on every `x > 0` it returns a value without raising any
error. -/
theorem herons_method_domain (x : ℚ) :
    (x ≤ 0 → herons_method x = .error "Input must be a positive real number.") ∧
    (0 < x → exceptOk (herons_method x) = true) := by
  constructor
  · intro hx
    rw [herons_method, if_pos hx]
  · intro hx
    exact herons_method_ok x hx

/-- Witness for claim C6 at `x = -1` (raises) and `x = 2` (returns). -/
theorem herons_method_domain_witness :
    herons_method (-1) = .error "Input must be a positive real number." ∧
      exceptOk (herons_method 2) = true :=
  ⟨(herons_method_domain (-1)).1 (by norm_num),
   (herons_method_domain 2).2 (by norm_num)⟩

/-- Claim C7 counterexample: two distinct live `Complex` objects with
identical components, `1 + 2i` both.  Their components agree, yet
Python `==` (which, absent `__eq__`, is identity comparison) reports
them unequal — refuting component-wise equality. -/
theorem complex_eq_not_componentwise :
    (BasicSyntax.PyComplexObj.mk 0 ⟨1, 2⟩).val =
        (BasicSyntax.PyComplexObj.mk 1 ⟨1, 2⟩).val ∧
      BasicSyntax.pyEq ⟨0, ⟨1, 2⟩⟩ ⟨1, ⟨1, 2⟩⟩ = false := by
  decide

/-- Claim C7 as amended: the `Complex` class defines no `__eq__`
method, so `==` on two `Complex` instances is the Python default:
object identity, not component-wise comparison. -/
theorem complex_eq_is_identity :
    "__eq__" ∉ BasicSyntax.Complex.defined_methods ∧
      ∀ a b : BasicSyntax.PyComplexObj,
        (BasicSyntax.pyEq a b = true ↔ a.id = b.id) := by
  refine ⟨by decide, fun a b => ?_⟩
  simp [BasicSyntax.pyEq]

/-- Witness for the amended claim C7, instantiated at two concrete
objects sharing an identity. -/
theorem complex_eq_is_identity_witness :
    "__eq__" ∉ BasicSyntax.Complex.defined_methods ∧
      (BasicSyntax.pyEq ⟨5, ⟨1, 2⟩⟩ ⟨5, ⟨1, 2⟩⟩ = true ↔ (5 : ℕ) = 5) :=
  ⟨complex_eq_is_identity.1, complex_eq_is_identity.2 ⟨5, ⟨1, 2⟩⟩ ⟨5, ⟨1, 2⟩⟩⟩

/-- Claim C8 counterexample: `float("inf")`-like input converts
successfully, so `Complex.__init__` accepts an infinite real part and
stores it unchanged — refuting both the claimed rejection of
non-finite arguments and the claimed finiteness of stored
components. -/
theorem complex_init_accepts_infinite :
    BasicSyntax.Complex.init (.flt .inf) (.flt (.finite 0)) =
        .ok ⟨.inf, .finite 0⟩ ∧
      BasicSyntax.PyFloat.isFinite .inf = false :=
  ⟨rfl, rfl⟩

/-- Claim C8 as amended: the constructor raises
`TypeError("A complex number is created from two real numbers.")`
exactly when `float()` conversion of an argument raises; every float
value, infinities and NaN included, is accepted and stored verbatim,
with no finiteness check. -/
theorem complex_init_conversion :
    (∀ a b : BasicSyntax.PyFloat,
        BasicSyntax.Complex.init (.flt a) (.flt b) = .ok ⟨a, b⟩) ∧
    (∀ x, BasicSyntax.Complex.init .nonnumeric x =
        .error "A complex number is created from two real numbers.") ∧
    (∀ x, BasicSyntax.Complex.init x .nonnumeric =
        .error "A complex number is created from two real numbers.") := by
  refine ⟨fun a b => rfl, fun x => ?_, fun x => ?_⟩
  · rfl
  · cases x with
    | flt f => rfl
    | nonnumeric => rfl

/-- Witness for the amended claim C8 at concrete inputs. -/
theorem complex_init_conversion_witness :
    BasicSyntax.Complex.init (.flt (.finite 1)) (.flt .nan) =
        .ok ⟨.finite 1, .nan⟩ ∧
      BasicSyntax.Complex.init .nonnumeric (.flt (.finite 0)) =
        .error "A complex number is created from two real numbers." :=
  ⟨complex_init_conversion.1 (.finite 1) .nan,
   complex_init_conversion.2.1 (.flt (.finite 0))⟩

/-- Claim C9: for `x > 0` the Heron iterate is strictly positive at
every loop state (hence after every update), so the divisions
`(x - a*a) / x` and `x / a` never see a zero denominator and
`herons_method` never raises once the precondition check passes. -/
theorem heron_iterate_positive (fuel : ℕ) (x a : ℚ) (hx : 0 < x)
    (ha : 0 < a) :
    okPos (heron_loop x fuel a) ∧ exceptOk (herons_method x) = true :=
  ⟨heron_loop_ok_pos x hx fuel a ha, herons_method_ok x hx⟩

/-- Witness for claim C9 at `x = 2` with the full iteration budget. -/
theorem heron_iterate_positive_witness :
    okPos (heron_loop 2 16 2) ∧ exceptOk (herons_method 2) = true :=
  heron_iterate_positive 16 2 2 (by norm_num) (by norm_num)

/-- Claim C10: `exp_by_squaring` terminates for every integer exponent,
positive, zero or negative: run on a fuel counter bounding the number
of loop passes by `log2 |n| + 2`, the loop always exits within the
budget and yields the untimed result. -/
theorem exp_by_squaring_terminates {F : Type} [Field F] (z : F) (n : ℤ) :
    exp_by_squaring_fuel (Nat.log2 n.natAbs + 2) z n =
      some (exp_by_squaring z n) := by
  rw [exp_by_squaring_fuel, exp_by_squaring]
  by_cases h0 : n = 0
  · rw [if_pos h0, if_pos h0]
  · rw [if_neg h0, if_neg h0]
    by_cases hneg : n < 0
    · rw [if_pos hneg, if_pos hneg]
      have habs : (-n).toNat = n.natAbs := by omega
      rw [habs]
      exact exp_loop_fuel_spec (Nat.log2 n.natAbs + 1) (1 / z) 1 n.natAbs
        (nat_lt_two_pow_log2_succ n.natAbs)
    · rw [if_neg hneg, if_neg hneg]
      have habs : n.toNat = n.natAbs := by omega
      rw [habs]
      exact exp_loop_fuel_spec (Nat.log2 n.natAbs + 1) z 1 n.natAbs
        (nat_lt_two_pow_log2_succ n.natAbs)

/-- Witness for claim C10 at `z = 1 + i` (as the pair of rational
components cannot appear here, a rational stands in), `n = -30`, the
demo input of the source. -/
theorem exp_by_squaring_terminates_witness :
    exp_by_squaring_fuel (Nat.log2 (-30 : ℤ).natAbs + 2) (2 : ℚ) (-30) =
      some (exp_by_squaring (2 : ℚ) (-30)) :=
  exp_by_squaring_terminates 2 (-30)
